import Mathlib

/-!
Verification of the fs2 file-locking library (danburkert/fs2-rs) against its
natural-language specification.  The Rust sources are shallowly embedded:
pure functions become Lean functions, fallible operations return `Except`,
syscalls are consumed through explicit kernel-outcome records, and the
stateful weak-symbol cache is explicit state passing.  Machine integers are
modelled as `Nat`/`Int` with explicit reduction modulo `2 ^ 64` where u64
overflow matters.
-/

/-- Rust `std::io::ErrorKind`, restricted to the variants this library can
produce. -/
inductive ErrorKind where
  | wouldBlock
  | other
  | uncategorized
  deriving DecidableEq, Repr

/-- Rust `std::io::Error` as this library constructs it: either
`Error::from_raw_os_error(code)` or `Error::new(kind, msg)`. -/
inductive IoError where
  | osError (code : Int)
  | newError (kind : ErrorKind) (msg : String)
  deriving DecidableEq, Repr

/-! ## Weak symbol resolver (src/weak.rs)

A symbol name is a byte string (`List Nat`); the dynamic-lookup facility
(`dlsym` against the process's loaded libraries) is an oracle
`List Nat → Nat` returning the resolved address, with `0` meaning absent.
The single `AtomicUsize` cell of a `Weak<F>` is the `addr` field of
`WeakState`; sequential state passing models the atomic loads and stores. -/

/-- The `dlsym` oracle: resolved address of a byte-string symbol name, `0`
when the symbol is absent from the loaded libraries. -/
def Dlsym : Type := List Nat → Nat

/-- The mutable cell of a `Weak<F>` entry: the value of its `AtomicUsize`. -/
structure WeakState where
  addr : Nat
  deriving DecidableEq, Repr

/-- `Weak::new(name)`: the cell starts at the reserved sentinel `1`
(`AtomicUsize::new(1)`), meaning "not yet probed". -/
def Weak.new : WeakState := ⟨1⟩

/-- `fetch(name)` from src/weak.rs: `CString::new(name)` fails exactly when
the byte string contains a NUL byte, in which case `fetch` returns `0`;
otherwise the result of `dlsym(RTLD_DEFAULT, name)` cast to `usize`. -/
def fetch (dl : Dlsym) (name : List Nat) : Nat :=
  if 0 ∈ name then 0 else dl name

/-- `Weak::get` from src/weak.rs, instrumented with the number of dynamic
lookups it performs.  Mirrors the source exactly: load the cell; if it reads
the sentinel `1`, store `fetch name`; load again; return `none` when the
stored value is `0`, otherwise the stored value (the `transmute` of the
nonzero address). -/
def Weak.get (dl : Dlsym) (name : List Nat) (s : WeakState) :
    Option Nat × WeakState × Nat :=
  let probe := if s.addr = 1 then (WeakState.mk (fetch dl name), 1) else (s, 0)
  let s1 := probe.1
  if s1.addr = 0 then (none, s1, probe.2) else (some s1.addr, s1, probe.2)

/-! ## Platform lock backends

Each backend function performs at most one native call; the native call's
observable outcome (return value and the thread's last OS error /
`GetLastError` value after it) is consumed through a kernel-outcome record,
so a backend function is a pure function of the handle and that record. -/

/-- An open file handle: its native identity (Unix file descriptor or raw
Windows handle value). -/
structure File where
  fd : Int
  deriving DecidableEq, Repr

/-- Outcome of one native call: the call's return value and the last OS
error code observed after it (meaningful only when the return value signals
failure). -/
structure SysOutcome where
  ret : Int
  errno : Int
  deriving DecidableEq, Repr

/-- The Unix kernel as the backend observes it: the outcome of `flock(fd,
flags)` and of `dup(fd)` (whose `ret` is the new descriptor on success). -/
structure UnixKernel where
  flock : Int → Nat → SysOutcome
  dup : Int → SysOutcome

namespace unix

/-- `libc::LOCK_SH`. -/
def LOCK_SH : Nat := 1

/-- `libc::LOCK_EX`. -/
def LOCK_EX : Nat := 2

/-- `libc::LOCK_NB`. -/
def LOCK_NB : Nat := 4

/-- `libc::LOCK_UN`. -/
def LOCK_UN : Nat := 8

/-- `libc::EWOULDBLOCK` (Linux value; the claims depend only on it being the
native contention code that `ErrorKind` classification maps to
`WouldBlock`). -/
def EWOULDBLOCK : Int := 11

/-- `std::io::Error::kind()` on the Unix family for the errors this library
builds: `from_raw_os_error(EWOULDBLOCK).kind() == WouldBlock`; other raw
codes this layer produces decode to no named variant; `Error::new` keeps its
kind. -/
def errorKind : IoError → ErrorKind
  | IoError.osError c => if c = EWOULDBLOCK then ErrorKind.wouldBlock else
      ErrorKind.uncategorized
  | IoError.newError k _ => k

/-- `flock` helper from src/unix.rs: one `libc::flock(fd, flag)` call;
negative return yields `Err(Error::last_os_error())`, otherwise `Ok(())`. -/
def flock (file : File) (flag : Nat) (k : UnixKernel) : Except IoError Unit :=
  let o := k.flock file.fd flag
  if o.ret < 0 then Except.error (IoError.osError o.errno) else Except.ok ()

/-- `lock_shared` from src/unix.rs. -/
def lock_shared (file : File) (k : UnixKernel) : Except IoError Unit :=
  flock file LOCK_SH k

/-- `lock_exclusive` from src/unix.rs. -/
def lock_exclusive (file : File) (k : UnixKernel) : Except IoError Unit :=
  flock file LOCK_EX k

/-- `lock_shared_nonblock` from src/unix.rs (the non-blocking shared
variant). -/
def lock_shared_nonblock (file : File) (k : UnixKernel) : Except IoError Unit :=
  flock file (LOCK_SH ||| LOCK_NB) k

/-- `lock_exclusive_nonblock` from src/unix.rs (the non-blocking exclusive
variant). -/
def lock_exclusive_nonblock (file : File) (k : UnixKernel) :
    Except IoError Unit :=
  flock file (LOCK_EX ||| LOCK_NB) k

/-- `unlock` from src/unix.rs. -/
def unlock (file : File) (k : UnixKernel) : Except IoError Unit :=
  flock file LOCK_UN k

/-- `duplicate` from src/unix.rs: `libc::dup(fd)`; a negative return yields
`Err(Error::last_os_error())`, otherwise the new descriptor wrapped as a
`File`. -/
def duplicate (file : File) (k : UnixKernel) : Except IoError File :=
  let o := k.dup file.fd
  if o.ret < 0 then Except.error (IoError.osError o.errno)
  else Except.ok (File.mk o.ret)

/-- `lock_error` from src/unix.rs:
`Error::from_raw_os_error(libc::EWOULDBLOCK)`. -/
def lock_error : IoError := IoError.osError EWOULDBLOCK

end unix

/-- The Windows kernel as the backend observes it: the outcome of
`LockFileEx(handle, flags, 0, !0, !0, overlapped)` and of
`UnlockFile(handle, 0, 0, !0, !0)`; `ret` is the BOOL result and `errno`
the `GetLastError` value after the call. -/
structure WinKernel where
  lockFileEx : Int → Nat → SysOutcome
  unlockFile : Int → SysOutcome

namespace windows

/-- `winapi::LOCKFILE_FAIL_IMMEDIATELY`. -/
def LOCKFILE_FAIL_IMMEDIATELY : Nat := 1

/-- `winapi::LOCKFILE_EXCLUSIVE_LOCK`. -/
def LOCKFILE_EXCLUSIVE_LOCK : Nat := 2

/-- `winapi::ERROR_LOCK_VIOLATION` (as `i32`). -/
def ERROR_LOCK_VIOLATION : Int := 33

/-- `lock_file` helper from src/windows.rs: one `LockFileEx` call over the
whole file; zero return yields `Err(Error::last_os_error())`, otherwise
`Ok(())`. -/
def lock_file (file : File) (flags : Nat) (k : WinKernel) :
    Except IoError Unit :=
  let o := k.lockFileEx file.fd flags
  if o.ret = 0 then Except.error (IoError.osError o.errno) else Except.ok ()

/-- `lock_shared` from src/windows.rs: `lock_file(file, 0)`. -/
def lock_shared (file : File) (k : WinKernel) : Except IoError Unit :=
  lock_file file 0 k

/-- `lock_exclusive` from src/windows.rs. -/
def lock_exclusive (file : File) (k : WinKernel) : Except IoError Unit :=
  lock_file file LOCKFILE_EXCLUSIVE_LOCK k

/-- `lock_shared_nonblock` from src/windows.rs. -/
def lock_shared_nonblock (file : File) (k : WinKernel) : Except IoError Unit :=
  lock_file file LOCKFILE_FAIL_IMMEDIATELY k

/-- `lock_exclusive_nonblock` from src/windows.rs. -/
def lock_exclusive_nonblock (file : File) (k : WinKernel) :
    Except IoError Unit :=
  lock_file file (LOCKFILE_EXCLUSIVE_LOCK ||| LOCKFILE_FAIL_IMMEDIATELY) k

/-- `unlock` from src/windows.rs: one `UnlockFile` call; zero return yields
`Err(Error::last_os_error())`, otherwise `Ok(())`. -/
def unlock (file : File) (k : WinKernel) : Except IoError Unit :=
  let o := k.unlockFile file.fd
  if o.ret = 0 then Except.error (IoError.osError o.errno) else Except.ok ()

/-- `lock_error` from src/windows.rs:
`Error::from_raw_os_error(winapi::ERROR_LOCK_VIOLATION as i32)`. -/
def lock_error : IoError := IoError.osError ERROR_LOCK_VIOLATION

end windows

namespace redox

/-- `lock_shared` from src/redox.rs: unconditionally
`Err(Error::new(ErrorKind::Other, "flock not supported yet"))`, with no
native call. -/
def lock_shared (_file : File) : Except IoError Unit :=
  Except.error (IoError.newError ErrorKind.other "flock not supported yet")

/-- `lock_exclusive` from src/redox.rs: unconditionally the same error. -/
def lock_exclusive (_file : File) : Except IoError Unit :=
  Except.error (IoError.newError ErrorKind.other "flock not supported yet")

/-- `try_lock_shared` from src/redox.rs: unconditionally the same error. -/
def try_lock_shared (_file : File) : Except IoError Unit :=
  Except.error (IoError.newError ErrorKind.other "flock not supported yet")

/-- `try_lock_exclusive` from src/redox.rs: unconditionally the same
error. -/
def try_lock_exclusive (_file : File) : Except IoError Unit :=
  Except.error (IoError.newError ErrorKind.other "flock not supported yet")

/-- `unlock` from src/redox.rs: unconditionally the same error. -/
def unlock (_file : File) : Except IoError Unit :=
  Except.error (IoError.newError ErrorKind.other "flock not supported yet")

/-- `lock_error` from src/redox.rs:
`Error::from_raw_os_error(syscall::EWOULDBLOCK)` (Redox errno value 11). -/
def lock_error : IoError := IoError.osError 11

end redox

/-! ## `impl FileExt for File` (src/lib.rs)

`lib.rs` compiles the Unix backend (`#[cfg(unix)] mod unix`) and each
trait method delegates directly to the backend function of the same
name. -/

namespace FileExt

/-- `File::duplicate` from src/lib.rs: `duplicate(self)`. -/
def duplicate (file : File) (k : UnixKernel) : Except IoError File :=
  unix.duplicate file k

/-- `File::lock_shared` from src/lib.rs: `lock_shared(self)`. -/
def lock_shared (file : File) (k : UnixKernel) : Except IoError Unit :=
  unix.lock_shared file k

/-- `File::lock_exclusive` from src/lib.rs. -/
def lock_exclusive (file : File) (k : UnixKernel) : Except IoError Unit :=
  unix.lock_exclusive file k

/-- `File::lock_shared_nonblock` from src/lib.rs. -/
def lock_shared_nonblock (file : File) (k : UnixKernel) :
    Except IoError Unit :=
  unix.lock_shared_nonblock file k

/-- `File::lock_exclusive_nonblock` from src/lib.rs. -/
def lock_exclusive_nonblock (file : File) (k : UnixKernel) :
    Except IoError Unit :=
  unix.lock_exclusive_nonblock file k

/-- `File::unlock` from src/lib.rs. -/
def unlock (file : File) (k : UnixKernel) : Except IoError Unit :=
  unix.unlock file k

end FileExt

/-! ## Scoped lock guard (src/guard.rs)

The guard is generic over `T: FileExt + ?Sized`; from the guard's viewpoint
a handle is the bundle of results its five trait-method calls would return
right now.  `FileLockGuard` holds the exclusive borrow of that handle. -/

/-- A `T: FileExt` handle as the guard layer observes it: the result each
trait method call returns on this handle. -/
structure FileExtOps where
  lock_shared : Except IoError Unit
  lock_exclusive : Except IoError Unit
  try_lock_shared : Except IoError Unit
  try_lock_exclusive : Except IoError Unit
  unlock : Except IoError Unit

/-- `FileLockGuard<'a, T>` from src/guard.rs: wraps the exclusively
borrowed, already locked handle. -/
structure FileLockGuard where
  file : FileExtOps

/-- `FileLockGuard::new` from src/guard.rs: wrap the handle (the file must
already be locked; `new` itself performs no operation on it). -/
def FileLockGuard.new (file : FileExtOps) : FileLockGuard :=
  FileLockGuard.mk file

/-- How `Drop::drop` for `FileLockGuard` terminates: normally, or fatally
(the `unwrap()` of a failed unlock diverges — a panic inside a destructor,
which the design classifies as an unrecoverable contract violation, never
a returned or suppressed error). -/
inductive DropOutcome where
  | normal
  | fatal (e : IoError)
  deriving DecidableEq, Repr

/-- Instrumented record of one run of the guard destructor: how many times
it invoked `unlock` on the wrapped handle, and how it terminated. -/
structure DropTrace where
  unlockCalls : Nat
  outcome : DropOutcome
  deriving DecidableEq, Repr

/-- `impl Drop for FileLockGuard` from src/guard.rs:
`self.file.unlock().unwrap()` — a single `unlock` call; `unwrap` ends the
destructor normally on `Ok` and diverges fatally on `Err`. -/
def FileLockGuard.drop (g : FileLockGuard) : DropTrace :=
  match g.file.unlock with
  | Except.ok _ => DropTrace.mk 1 DropOutcome.normal
  | Except.error e => DropTrace.mk 1 (DropOutcome.fatal e)

/-- `lock_shared_guard` from src/guard.rs (`impl<T: FileExt> FileLock for
T`): `self.lock_shared()?; Ok(FileLockGuard::new(self))`. -/
def lock_shared_guard (file : FileExtOps) : Except IoError FileLockGuard :=
  match file.lock_shared with
  | Except.ok _ => Except.ok (FileLockGuard.new file)
  | Except.error e => Except.error e

/-- `lock_exclusive_guard` from src/guard.rs. -/
def lock_exclusive_guard (file : FileExtOps) : Except IoError FileLockGuard :=
  match file.lock_exclusive with
  | Except.ok _ => Except.ok (FileLockGuard.new file)
  | Except.error e => Except.error e

/-- `try_lock_shared_guard` from src/guard.rs. -/
def try_lock_shared_guard (file : FileExtOps) : Except IoError FileLockGuard :=
  match file.try_lock_shared with
  | Except.ok _ => Except.ok (FileLockGuard.new file)
  | Except.error e => Except.error e

/-- `try_lock_exclusive_guard` from src/guard.rs. -/
def try_lock_exclusive_guard (file : FileExtOps) :
    Except IoError FileLockGuard :=
  match file.try_lock_exclusive with
  | Except.ok _ => Except.ok (FileLockGuard.new file)
  | Except.error e => Except.error e

/-- Modelled from the spec: the owning guard variant (spec §4.4) is not
present in src/src/guard.rs, which only contains the borrowing
`FileLockGuard<'a, T>`.  Per the spec, the owning guard "takes exclusive
ownership of the handle". -/
structure OwnedFileLockGuard where
  file : FileExtOps

/-- Modelled from the spec: the owning guard constructor (spec §4.4,
missing from src/) — it attempts the initial lock with the given lock
operation and, "on failure to acquire the initial lock, returns the handle
back to the caller alongside the system error, so no handle is silently
lost"; on success it wraps the now-owned, locked handle. -/
def owned_lock_guard (acquire : FileExtOps → Except IoError Unit)
    (file : FileExtOps) : Except (IoError × FileExtOps) OwnedFileLockGuard :=
  match acquire file with
  | Except.ok _ => Except.ok (OwnedFileLockGuard.mk file)
  | Except.error e => Except.error (e, file)

/-! ## Redox filesystem helpers (src/redox.rs) -/

/-- u64 arithmetic bound. -/
def U64LIM : Nat := 2 ^ 64

/-- `u64` multiplication: the product reduced modulo `2 ^ 64`. -/
def u64mul (a b : Nat) : Nat := a * b % U64LIM

/-- `FsStats` as src/redox.rs `statvfs` builds it. -/
structure FsStats where
  free_space : Nat
  available_space : Nat
  total_space : Nat
  allocation_granularity : Nat
  deriving DecidableEq, Repr

/-- `syscall::StatVfs`: block size and block counts reported by
`fstatvfs`. -/
structure StatVfs where
  f_bsize : Nat
  f_blocks : Nat
  f_bfree : Nat
  f_bavail : Nat
  deriving DecidableEq, Repr

/-- A Redox file as `allocate` observes it: the length `metadata()` would
report, and whether the `metadata()` and `set_len` calls succeed (`none`)
or fail with a given error. -/
structure RedoxFile where
  len : Nat
  metadataErr : Option IoError
  setLenErr : Option IoError
  deriving DecidableEq, Repr

/-- One native call made by `statvfs`, in order. -/
inductive SysEvent where
  | openCall
  | fstatvfsCall (fd : Nat)
  | closeCall (fd : Nat)
  deriving DecidableEq, Repr

/-- Outcomes of the Redox syscalls `statvfs` performs: `open` yields an
errno or a descriptor, `fstatvfs fd` yields an errno or the stat it fills
in. -/
structure RedoxStatKernel where
  openRes : Except Int Nat
  fstatvfsRes : Nat → Except Int StatVfs

namespace redox

/-- `allocate` from src/redox.rs: `if len > file.metadata()?.len() {
file.set_len(len) } else { Ok(()) }`.  Returns the result, the file after
the call, and whether `set_len` was invoked. -/
def allocate (file : RedoxFile) (len : Nat) :
    Except IoError Unit × RedoxFile × Bool :=
  match file.metadataErr with
  | some e => (Except.error e, file, false)
  | none =>
    if len > file.len then
      match file.setLenErr with
      | some e => (Except.error e, file, true)
      | none => (Except.ok (), { file with len := len }, true)
    else
      (Except.ok (), file, false)

/-- `statvfs` from src/redox.rs: open the path (`O_CLOEXEC | O_STAT`),
`fstatvfs` into a default `StatVfs`, close the descriptor ignoring the
close result, then propagate the `fstatvfs` error (`res?`) or build the
`FsStats` from `f_bsize as u64` times the block counts.  Returns the
result together with the ordered list of native calls performed. -/
def statvfs (k : RedoxStatKernel) : Except IoError FsStats × List SysEvent :=
  match k.openRes with
  | Except.error e => (Except.error (IoError.osError e), [SysEvent.openCall])
  | Except.ok fd =>
    match k.fstatvfsRes fd with
    | Except.error e =>
        (Except.error (IoError.osError e),
         [SysEvent.openCall, SysEvent.fstatvfsCall fd, SysEvent.closeCall fd])
    | Except.ok stat =>
        (Except.ok
          (FsStats.mk (u64mul stat.f_bsize stat.f_bfree)
            (u64mul stat.f_bsize stat.f_bavail)
            (u64mul stat.f_bsize stat.f_blocks)
            stat.f_bsize),
         [SysEvent.openCall, SysEvent.fstatvfsCall fd, SysEvent.closeCall fd])

end redox

/-! ## Claims -/

/-- C1: when a successfully constructed `FileLockGuard` is destroyed at
scope end, its destructor calls `unlock` on the wrapped handle exactly
once; if that unlock returns `Ok` the destructor ends normally, and if it
returns an error the destructor diverges fatally with that error (an
unrecoverable contract violation) instead of returning or suppressing
it. -/
theorem guard_drop_unlocks_once_and_never_returns_error
    (g : FileLockGuard) :
    (FileLockGuard.drop g).unlockCalls = 1 ∧
    (g.file.unlock = Except.ok () →
      (FileLockGuard.drop g).outcome = DropOutcome.normal) ∧
    (∀ e : IoError, g.file.unlock = Except.error e →
      (FileLockGuard.drop g).outcome = DropOutcome.fatal e) := by
  unfold FileLockGuard.drop
  refine ⟨?_, ?_, ?_⟩
  · cases h : g.file.unlock <;> simp [h]
  · intro h
    simp [h]
  · intro e h
    simp [h]

/-- C1 witness: the destructor of a guard whose handle's unlock fails with
`EBADF` performs one unlock call and terminates fatally with that error. -/
theorem guard_drop_fatal_witness :
    (FileLockGuard.drop (FileLockGuard.mk
      (FileExtOps.mk (Except.ok ()) (Except.ok ()) (Except.ok ())
        (Except.ok ()) (Except.error (IoError.osError 9))))).unlockCalls
        = 1 ∧
    (FileLockGuard.drop (FileLockGuard.mk
      (FileExtOps.mk (Except.ok ()) (Except.ok ()) (Except.ok ())
        (Except.ok ()) (Except.error (IoError.osError 9))))).outcome
        = DropOutcome.fatal (IoError.osError 9) := by
  have h := guard_drop_unlocks_once_and_never_returns_error
    (FileLockGuard.mk (FileExtOps.mk (Except.ok ()) (Except.ok ())
      (Except.ok ()) (Except.ok ()) (Except.error (IoError.osError 9))))
  exact ⟨h.1, h.2.2 (IoError.osError 9) rfl⟩

/-- C2: each of the four guard constructors returns a guard exactly when
the corresponding lock operation on the handle returns success, and when
that operation fails the constructor returns the very same error (no
retry, no wrapping) and no guard is constructed. -/
theorem guard_ctors_return_guard_iff_lock_ok (file : FileExtOps) :
    ((∃ g, lock_shared_guard file = Except.ok g) ↔
      file.lock_shared = Except.ok ()) ∧
    (∀ e, lock_shared_guard file = Except.error e ↔
      file.lock_shared = Except.error e) ∧
    ((∃ g, lock_exclusive_guard file = Except.ok g) ↔
      file.lock_exclusive = Except.ok ()) ∧
    (∀ e, lock_exclusive_guard file = Except.error e ↔
      file.lock_exclusive = Except.error e) ∧
    ((∃ g, try_lock_shared_guard file = Except.ok g) ↔
      file.try_lock_shared = Except.ok ()) ∧
    (∀ e, try_lock_shared_guard file = Except.error e ↔
      file.try_lock_shared = Except.error e) ∧
    ((∃ g, try_lock_exclusive_guard file = Except.ok g) ↔
      file.try_lock_exclusive = Except.ok ()) ∧
    (∀ e, try_lock_exclusive_guard file = Except.error e ↔
      file.try_lock_exclusive = Except.error e) := by
  refine ⟨?_, ?_, ?_, ?_, ?_, ?_, ?_, ?_⟩
  · cases h : file.lock_shared with
    | ok u => cases u; simp [lock_shared_guard, h]
    | error e => simp [lock_shared_guard, h]
  · intro e
    cases h : file.lock_shared with
    | ok u => cases u; simp [lock_shared_guard, h]
    | error e2 => simp [lock_shared_guard, h]
  · cases h : file.lock_exclusive with
    | ok u => cases u; simp [lock_exclusive_guard, h]
    | error e => simp [lock_exclusive_guard, h]
  · intro e
    cases h : file.lock_exclusive with
    | ok u => cases u; simp [lock_exclusive_guard, h]
    | error e2 => simp [lock_exclusive_guard, h]
  · cases h : file.try_lock_shared with
    | ok u => cases u; simp [try_lock_shared_guard, h]
    | error e => simp [try_lock_shared_guard, h]
  · intro e
    cases h : file.try_lock_shared with
    | ok u => cases u; simp [try_lock_shared_guard, h]
    | error e2 => simp [try_lock_shared_guard, h]
  · cases h : file.try_lock_exclusive with
    | ok u => cases u; simp [try_lock_exclusive_guard, h]
    | error e => simp [try_lock_exclusive_guard, h]
  · intro e
    cases h : file.try_lock_exclusive with
    | ok u => cases u; simp [try_lock_exclusive_guard, h]
    | error e2 => simp [try_lock_exclusive_guard, h]

/-- C3: the owning guard constructor (modelled from the spec; only the
borrowing guard exists in src/) takes the handle by value; when the
initial acquisition fails it returns the original handle back to the
caller paired with the system error, and when it succeeds it returns the
guard owning that handle. -/
theorem owned_guard_returns_handle_on_failure
    (acquire : FileExtOps → Except IoError Unit) (file : FileExtOps) :
    (∀ e, acquire file = Except.error e →
      owned_lock_guard acquire file = Except.error (e, file)) ∧
    (acquire file = Except.ok () →
      owned_lock_guard acquire file =
        Except.ok (OwnedFileLockGuard.mk file)) := by
  unfold owned_lock_guard
  refine ⟨?_, ?_⟩
  · intro e h
    rw [h]
  · intro h
    rw [h]

/-- C3 witness: attempting the owning guard with a handle whose
`try_lock_exclusive` reports contention returns the contention error
together with the original handle. -/
theorem owned_guard_failure_witness :
    owned_lock_guard (fun f => f.try_lock_exclusive)
      (FileExtOps.mk (Except.ok ()) (Except.ok ()) (Except.ok ())
        (Except.error unix.lock_error) (Except.ok ())) =
      Except.error (unix.lock_error,
        FileExtOps.mk (Except.ok ()) (Except.ok ()) (Except.ok ())
          (Except.error unix.lock_error) (Except.ok ())) := by
  have h := owned_guard_returns_handle_on_failure
    (fun f => f.try_lock_exclusive)
    (FileExtOps.mk (Except.ok ()) (Except.ok ()) (Except.ok ())
      (Except.error unix.lock_error) (Except.ok ()))
  exact h.1 unix.lock_error rfl

/-- C5: a `Weak` cache entry starts at the reserved sentinel `1` (distinct
from the genuine absent value `0`); the first `get` performs exactly one
dynamic lookup and stores `fetch`'s result (`0` when absent, the resolved
address otherwise), returning `none` exactly when that stored value is
`0`; any later `get` on the resolved cell performs no lookup, leaves the
cell unchanged, and returns `none` exactly when the stored value is `0`.
The hypothesis that the resolved value is not `1` is the sentinel's
reservation. -/
theorem weak_cache_probe_once (dl : Dlsym) (name : List Nat)
    (hres : fetch dl name ≠ 1) :
    Weak.new.addr = 1 ∧
    (1 : Nat) ≠ 0 ∧
    Weak.get dl name Weak.new =
      (if fetch dl name = 0 then none else some (fetch dl name),
       WeakState.mk (fetch dl name), 1) ∧
    Weak.get dl name (WeakState.mk (fetch dl name)) =
      (if fetch dl name = 0 then none else some (fetch dl name),
       WeakState.mk (fetch dl name), 0) ∧
    (∀ s : WeakState, s.addr ≠ 1 →
      ((Weak.get dl name s).1 = none ↔ s.addr = 0)) := by
  refine ⟨rfl, by decide, ?_, ?_, ?_⟩
  · by_cases hf : fetch dl name = 0 <;> simp [Weak.get, Weak.new, hf]
  · by_cases hf : fetch dl name = 0 <;> simp [Weak.get, hres, hf]
  · intro s hs
    by_cases h0 : s.addr = 0 <;> simp [Weak.get, hs, h0]

/-- C5 witness: for a symbol resolving to address `7`, the first `get`
performs one lookup, stores `7`, and returns it; the next `get` performs
no lookup and returns the cached `7`. -/
theorem weak_cache_probe_once_witness :
    Weak.get (fun _ => 7) [97] Weak.new = (some 7, WeakState.mk 7, 1) ∧
    Weak.get (fun _ => 7) [97] (WeakState.mk 7) =
      (some 7, WeakState.mk 7, 0) := by
  have h := weak_cache_probe_once (fun _ => 7) [97] (by decide)
  refine ⟨?_, ?_⟩
  · have h3 := h.2.2.1
    simpa using h3
  · have h4 := h.2.2.2.1
    simpa using h4

/-- C8: for a symbol name containing a NUL byte, the `CString` construction
inside `fetch` fails, `fetch` returns `0`, the first `get` stores `0` and
returns `none`, and every later `get` reads the cached `0` without a
lookup and returns `none` — the symbol is permanently reported absent,
with no panic or error. -/
theorem weak_get_none_on_interior_nul (dl : Dlsym) (name : List Nat)
    (h : 0 ∈ name) :
    fetch dl name = 0 ∧
    Weak.get dl name Weak.new = (none, WeakState.mk 0, 1) ∧
    Weak.get dl name (WeakState.mk 0) = (none, WeakState.mk 0, 0) := by
  have hf : fetch dl name = 0 := by
    unfold fetch
    simp [h]
  refine ⟨hf, ?_, ?_⟩
  · unfold Weak.get Weak.new
    simp [hf]
  · unfold Weak.get
    simp

/-- C8 witness: the name `"a\x00b"` (bytes `[97, 0, 98]`) is reported
absent by both the first and the second `get`, even though the lookup
oracle would have resolved it. -/
theorem weak_get_nul_witness :
    Weak.get (fun _ => 7) [97, 0, 98] Weak.new = (none, WeakState.mk 0, 1) ∧
    Weak.get (fun _ => 7) [97, 0, 98] (WeakState.mk 0) =
      (none, WeakState.mk 0, 0) := by
  have h := weak_get_none_on_interior_nul (fun _ => 7) [97, 0, 98]
    (by decide)
  exact ⟨h.2.1, h.2.2⟩

/-- C4: on the Unix family `lock_error` is exactly
`Error::from_raw_os_error(EWOULDBLOCK)`, whose kind is `WouldBlock`; on the
Windows family it is exactly
`Error::from_raw_os_error(ERROR_LOCK_VIOLATION)`; and whenever the native
call of a non-blocking lock variant reports its family's contention signal
(`flock` failing with `EWOULDBLOCK`, `LockFileEx` failing with
`ERROR_LOCK_VIOLATION`), that variant returns an error equal to
`lock_error`, so comparing against `lock_error` detects contention on
either family. -/
theorem lock_contended_error_matches_native_contention :
    unix.lock_error = IoError.osError unix.EWOULDBLOCK ∧
    unix.errorKind unix.lock_error = ErrorKind.wouldBlock ∧
    windows.lock_error = IoError.osError windows.ERROR_LOCK_VIOLATION ∧
    (∀ (f : File) (k : UnixKernel),
      k.flock f.fd (unix.LOCK_SH ||| unix.LOCK_NB) =
        SysOutcome.mk (-1) unix.EWOULDBLOCK →
      unix.lock_shared_nonblock f k = Except.error unix.lock_error) ∧
    (∀ (f : File) (k : UnixKernel),
      k.flock f.fd (unix.LOCK_EX ||| unix.LOCK_NB) =
        SysOutcome.mk (-1) unix.EWOULDBLOCK →
      unix.lock_exclusive_nonblock f k = Except.error unix.lock_error) ∧
    (∀ (f : File) (k : WinKernel),
      k.lockFileEx f.fd windows.LOCKFILE_FAIL_IMMEDIATELY =
        SysOutcome.mk 0 windows.ERROR_LOCK_VIOLATION →
      windows.lock_shared_nonblock f k = Except.error windows.lock_error) ∧
    (∀ (f : File) (k : WinKernel),
      k.lockFileEx f.fd
        (windows.LOCKFILE_EXCLUSIVE_LOCK |||
          windows.LOCKFILE_FAIL_IMMEDIATELY) =
        SysOutcome.mk 0 windows.ERROR_LOCK_VIOLATION →
      windows.lock_exclusive_nonblock f k =
        Except.error windows.lock_error) := by
  refine ⟨rfl, rfl, rfl, ?_, ?_, ?_, ?_⟩
  · intro f k h
    simp [unix.lock_shared_nonblock, unix.flock, unix.lock_error, h]
  · intro f k h
    simp [unix.lock_exclusive_nonblock, unix.flock, unix.lock_error, h]
  · intro f k h
    simp [windows.lock_shared_nonblock, windows.lock_file,
      windows.lock_error, h]
  · intro f k h
    simp [windows.lock_exclusive_nonblock, windows.lock_file,
      windows.lock_error, h]

/-- C4 witness: with kernels in the contended state, the non-blocking
variants of both families return exactly their family's `lock_error`. -/
theorem lock_contended_error_witness :
    unix.lock_shared_nonblock (File.mk 3)
      (UnixKernel.mk (fun _ _ => SysOutcome.mk (-1) unix.EWOULDBLOCK)
        (fun _ => SysOutcome.mk (-1) 9)) =
      Except.error unix.lock_error ∧
    windows.lock_exclusive_nonblock (File.mk 3)
      (WinKernel.mk
        (fun _ _ => SysOutcome.mk 0 windows.ERROR_LOCK_VIOLATION)
        (fun _ => SysOutcome.mk 1 0)) =
      Except.error windows.lock_error := by
  have h := lock_contended_error_matches_native_contention
  exact ⟨h.2.2.2.1 (File.mk 3) _ rfl, h.2.2.2.2.2.2 (File.mk 3) _ rfl⟩

/-- C6 counterexample: the redox backend's lock operations fail without
consulting any native primitive — on a concrete handle, `lock_shared` and
`try_lock_exclusive` unconditionally return
`Error::new(ErrorKind::Other, "flock not supported yet")`, which is not an
OS-reported system error and does not depend on any native call
outcome. -/
theorem redox_backend_fails_without_native_call :
    redox.lock_shared (File.mk 3) =
      Except.error
        (IoError.newError ErrorKind.other "flock not supported yet") ∧
    redox.try_lock_exclusive (File.mk 3) =
      Except.error
        (IoError.newError ErrorKind.other "flock not supported yet") :=
  ⟨rfl, rfl⟩

/-- C6 amended: for the unix and windows backends, each locking operation
returns an error exactly when its single native call (`flock`,
`LockFileEx`, `UnlockFile`) reports failure, with the error built from the
reported OS error code; the redox backend's five locking operations
instead fail unconditionally with an `ErrorKind::Other`
"flock not supported yet" error, performing no native call. -/
theorem backend_errors_track_native_failure_except_redox :
    (∀ (f : File) (k : UnixKernel),
      unix.lock_shared f k =
        (if (k.flock f.fd unix.LOCK_SH).ret < 0
         then Except.error (IoError.osError (k.flock f.fd unix.LOCK_SH).errno)
         else Except.ok ())) ∧
    (∀ (f : File) (k : UnixKernel),
      unix.lock_exclusive f k =
        (if (k.flock f.fd unix.LOCK_EX).ret < 0
         then Except.error (IoError.osError (k.flock f.fd unix.LOCK_EX).errno)
         else Except.ok ())) ∧
    (∀ (f : File) (k : UnixKernel),
      unix.lock_shared_nonblock f k =
        (if (k.flock f.fd (unix.LOCK_SH ||| unix.LOCK_NB)).ret < 0
         then Except.error
           (IoError.osError (k.flock f.fd (unix.LOCK_SH ||| unix.LOCK_NB)).errno)
         else Except.ok ())) ∧
    (∀ (f : File) (k : UnixKernel),
      unix.lock_exclusive_nonblock f k =
        (if (k.flock f.fd (unix.LOCK_EX ||| unix.LOCK_NB)).ret < 0
         then Except.error
           (IoError.osError (k.flock f.fd (unix.LOCK_EX ||| unix.LOCK_NB)).errno)
         else Except.ok ())) ∧
    (∀ (f : File) (k : UnixKernel),
      unix.unlock f k =
        (if (k.flock f.fd unix.LOCK_UN).ret < 0
         then Except.error (IoError.osError (k.flock f.fd unix.LOCK_UN).errno)
         else Except.ok ())) ∧
    (∀ (f : File) (k : WinKernel),
      windows.lock_shared f k =
        (if (k.lockFileEx f.fd 0).ret = 0
         then Except.error (IoError.osError (k.lockFileEx f.fd 0).errno)
         else Except.ok ())) ∧
    (∀ (f : File) (k : WinKernel),
      windows.lock_exclusive f k =
        (if (k.lockFileEx f.fd windows.LOCKFILE_EXCLUSIVE_LOCK).ret = 0
         then Except.error
           (IoError.osError (k.lockFileEx f.fd windows.LOCKFILE_EXCLUSIVE_LOCK).errno)
         else Except.ok ())) ∧
    (∀ (f : File) (k : WinKernel),
      windows.lock_shared_nonblock f k =
        (if (k.lockFileEx f.fd windows.LOCKFILE_FAIL_IMMEDIATELY).ret = 0
         then Except.error
           (IoError.osError (k.lockFileEx f.fd windows.LOCKFILE_FAIL_IMMEDIATELY).errno)
         else Except.ok ())) ∧
    (∀ (f : File) (k : WinKernel),
      windows.lock_exclusive_nonblock f k =
        (if (k.lockFileEx f.fd
              (windows.LOCKFILE_EXCLUSIVE_LOCK |||
                windows.LOCKFILE_FAIL_IMMEDIATELY)).ret = 0
         then Except.error
           (IoError.osError (k.lockFileEx f.fd
             (windows.LOCKFILE_EXCLUSIVE_LOCK |||
               windows.LOCKFILE_FAIL_IMMEDIATELY)).errno)
         else Except.ok ())) ∧
    (∀ (f : File) (k : WinKernel),
      windows.unlock f k =
        (if (k.unlockFile f.fd).ret = 0
         then Except.error (IoError.osError (k.unlockFile f.fd).errno)
         else Except.ok ())) ∧
    (∀ f : File, redox.lock_shared f =
      Except.error
        (IoError.newError ErrorKind.other "flock not supported yet")) ∧
    (∀ f : File, redox.lock_exclusive f =
      Except.error
        (IoError.newError ErrorKind.other "flock not supported yet")) ∧
    (∀ f : File, redox.try_lock_shared f =
      Except.error
        (IoError.newError ErrorKind.other "flock not supported yet")) ∧
    (∀ f : File, redox.try_lock_exclusive f =
      Except.error
        (IoError.newError ErrorKind.other "flock not supported yet")) ∧
    (∀ f : File, redox.unlock f =
      Except.error
        (IoError.newError ErrorKind.other "flock not supported yet")) :=
  ⟨fun _ _ => rfl, fun _ _ => rfl, fun _ _ => rfl, fun _ _ => rfl,
   fun _ _ => rfl, fun _ _ => rfl, fun _ _ => rfl, fun _ _ => rfl,
   fun _ _ => rfl, fun _ _ => rfl, fun _ => rfl, fun _ => rfl,
   fun _ => rfl, fun _ => rfl, fun _ => rfl⟩

/-- C7: each File Lock capability method of `impl FileExt for File` is
extensionally equal to the corresponding Unix backend function — for every
handle and kernel state it returns exactly the backend function's result,
with no buffering, retry, state, or transformation in between. -/
theorem fileext_impl_delegates_to_backend (f : File) (k : UnixKernel) :
    FileExt.duplicate f k = unix.duplicate f k ∧
    FileExt.lock_shared f k = unix.lock_shared f k ∧
    FileExt.lock_exclusive f k = unix.lock_exclusive f k ∧
    FileExt.lock_shared_nonblock f k = unix.lock_shared_nonblock f k ∧
    FileExt.lock_exclusive_nonblock f k =
      unix.lock_exclusive_nonblock f k ∧
    FileExt.unlock f k = unix.unlock f k :=
  ⟨rfl, rfl, rfl, rfl, rfl, rfl⟩

/-- C9: when `metadata()` succeeds, redox `allocate(file, len)` returns
`Ok(())` and leaves the file untouched whenever `len` is at most the
current length; it invokes `set_len` exactly when `len` exceeds the
current length; and in every case the resulting length is at least the
original — `allocate` never shrinks the file. -/
theorem redox_allocate_never_shrinks (file : RedoxFile) (len : Nat)
    (hmeta : file.metadataErr = none) :
    (len ≤ file.len →
      redox.allocate file len = (Except.ok (), file, false)) ∧
    ((redox.allocate file len).2.2 = true ↔ len > file.len) ∧
    file.len ≤ (redox.allocate file len).2.1.len := by
  unfold redox.allocate
  rw [hmeta]
  refine ⟨?_, ?_, ?_⟩
  · intro hle
    rw [if_neg (by omega)]
  · by_cases hgt : len > file.len
    · rw [if_pos hgt]
      cases h : file.setLenErr <;> simp [hgt]
    · rw [if_neg hgt]
      simp [hgt]
  · by_cases hgt : len > file.len
    · rw [if_pos hgt]
      cases h : file.setLenErr
      · simp
        omega
      · simp
    · rw [if_neg hgt]

/-- C9 witness: on a file of length 5 with healthy syscalls, `allocate` to
length 3 is a no-op success without `set_len`, while `allocate` to length
9 invokes `set_len` and grows the file to length 9. -/
theorem redox_allocate_witness :
    redox.allocate (RedoxFile.mk 5 none none) 3 =
      (Except.ok (), RedoxFile.mk 5 none none, false) ∧
    ((redox.allocate (RedoxFile.mk 5 none none) 9).2.2 = true ↔ 9 > 5) := by
  have h3 := redox_allocate_never_shrinks (RedoxFile.mk 5 none none) 3 rfl
  have h9 := redox_allocate_never_shrinks (RedoxFile.mk 5 none none) 9 rfl
  exact ⟨h3.1 (by decide), h9.2.1⟩

/-- C10: redox `statvfs` closes the descriptor it opens on every path
before returning — in particular when `fstatvfs` fails, the close happens
and only then is the `fstatvfs` error propagated — and on success the
returned `FsStats` fields are the u64 products of the reported block size
with the free, available, and total block counts, with
`allocation_granularity` equal to the block size. -/
theorem redox_statvfs_closes_fd_and_reports_products
    (k : RedoxStatKernel) :
    (∀ fd, k.openRes = Except.ok fd →
      SysEvent.closeCall fd ∈ (redox.statvfs k).2) ∧
    (∀ fd e, k.openRes = Except.ok fd →
      k.fstatvfsRes fd = Except.error e →
      redox.statvfs k =
        (Except.error (IoError.osError e),
         [SysEvent.openCall, SysEvent.fstatvfsCall fd,
          SysEvent.closeCall fd])) ∧
    (∀ fd stat, k.openRes = Except.ok fd →
      k.fstatvfsRes fd = Except.ok stat →
      redox.statvfs k =
        (Except.ok
          (FsStats.mk (u64mul stat.f_bsize stat.f_bfree)
            (u64mul stat.f_bsize stat.f_bavail)
            (u64mul stat.f_bsize stat.f_blocks)
            stat.f_bsize),
         [SysEvent.openCall, SysEvent.fstatvfsCall fd,
          SysEvent.closeCall fd])) := by
  refine ⟨?_, ?_, ?_⟩
  · intro fd hopen
    unfold redox.statvfs
    simp only [hopen]
    cases h : k.fstatvfsRes fd <;> simp [h]
  · intro fd e hopen hstat
    unfold redox.statvfs
    simp only [hopen, hstat]
  · intro fd stat hopen hstat
    unfold redox.statvfs
    simp only [hopen, hstat]

/-- C10 witness: with a kernel that opens descriptor 4 and reports a
4096-byte block size with 10 free, 8 available and 20 total blocks,
`statvfs` closes descriptor 4 and reports the corresponding byte counts;
with the same open but a failing `fstatvfs` (EACCES), it still closes
descriptor 4 and propagates the error. -/
theorem redox_statvfs_witness :
    redox.statvfs
      (RedoxStatKernel.mk (Except.ok 4)
        (fun _ => Except.ok (StatVfs.mk 4096 20 10 8))) =
      (Except.ok (FsStats.mk 40960 32768 81920 4096),
       [SysEvent.openCall, SysEvent.fstatvfsCall 4,
        SysEvent.closeCall 4]) ∧
    redox.statvfs
      (RedoxStatKernel.mk (Except.ok 4) (fun _ => Except.error 13)) =
      (Except.error (IoError.osError 13),
       [SysEvent.openCall, SysEvent.fstatvfsCall 4,
        SysEvent.closeCall 4]) := by
  have hok := redox_statvfs_closes_fd_and_reports_products
    (RedoxStatKernel.mk (Except.ok 4)
      (fun _ => Except.ok (StatVfs.mk 4096 20 10 8)))
  have herr := redox_statvfs_closes_fd_and_reports_products
    (RedoxStatKernel.mk (Except.ok 4) (fun _ => Except.error 13))
  refine ⟨?_, ?_⟩
  · have h := hok.2.2 4 (StatVfs.mk 4096 20 10 8) rfl rfl
    rw [h]
    norm_num [u64mul, U64LIM]
  · exact herr.2.1 4 13 rfl rfl
